import Mathlib

/-!
Verification of the PVT booking-integration backend: a shallow embedding of
the Room / Booking / Payment models and of the booking and payment
controllers, together with theorems settling the specified properties.

Conventions of the embedding:
* timestamps are integers (milliseconds since the epoch, as JavaScript
  `Date` arithmetic yields);
* money values are rationals;
* Mongoose documents become structures, instance/static methods become
  functions taking the document (and, where the JS method queries the
  database, the list of stored documents) as arguments;
* controller actions become functions from a `SystemState` to
  `Except BookingError ...`, returning the updated state.
-/

namespace PVT

abbrev Ms := Int
abbrev Money := ℚ

def msPerHour : Int := 3600000

def msPerDay : Int := 86400000

/-- `Math.ceil(a / b)` for integer `a` and positive integer `b`. -/
def ceilDivInt (a b : Int) : Int := -((-a).fdiv b)

/-- `Math.floor(a / b)` for integer `a` and positive integer `b`. -/
def floorDivInt (a b : Int) : Int := a.fdiv b

/-- Room.type enum from the Room schema. -/
inductive RoomType
  | private'
  | shared
  | dorm
  | suite
deriving DecidableEq, Repr

/-- Room.status enum from the Room schema. -/
inductive RoomStatus
  | available
  | occupied
  | maintenance
  | cleaning
  | out_of_order
deriving DecidableEq, Repr

/-- Booking.status enum from the Booking schema. -/
inductive BookingStatus
  | pending
  | confirmed
  | cancelled
  | checked_in
  | checked_out
  | no_show
deriving DecidableEq, Repr

/-- Booking.payment.status enum from the Booking schema. -/
inductive BookingPaymentStatus
  | pending
  | partial'
  | paid
  | refunded
  | failed
deriving DecidableEq, Repr

/-- Payment.status enum from the Payment schema. -/
inductive PaymentStatus
  | pending
  | processing
  | succeeded
  | failed
  | cancelled
  | refunded
  | partially_refunded
deriving DecidableEq, Repr

/-- Status of an entry of Payment.refunds. -/
inductive RefundStatus
  | pending
  | succeeded
  | failed
deriving DecidableEq, Repr

/-- Booking.pricing (the fields the engine computes and reads). -/
structure Pricing where
  baseAmount : Money
  taxes : Money
  totalAmount : Money
deriving DecidableEq, Repr

/-- Booking.payment summary subdocument. -/
structure PaymentInfo where
  status : BookingPaymentStatus
  paidAmount : Money
  remainingAmount : Money
deriving DecidableEq, Repr

/-- Booking.cancellation subdocument (fields the engine computes). -/
structure CancellationInfo where
  refundAmount : Money
deriving DecidableEq, Repr

/-- A Booking document. -/
structure Booking where
  id : Nat
  room : Nat
  status : BookingStatus
  checkInDate : Ms
  checkOutDate : Ms
  guestCount : Nat
  pricing : Pricing
  payment : PaymentInfo
  cancellation : Option CancellationInfo
deriving DecidableEq, Repr

/-- A Room document. -/
structure Room where
  id : Nat
  type : RoomType
  capacity : Nat
  currentOccupancy : Nat
  basePrice : Money
  status : RoomStatus
  isActive : Bool
deriving DecidableEq, Repr

/-- An entry of Payment.refunds. -/
structure Refund where
  amount : Money
  status : RefundStatus
deriving DecidableEq, Repr

/-- A Payment document. -/
structure Payment where
  id : Nat
  booking : Nat
  amount : Money
  status : PaymentStatus
  stripePaymentIntentId : Option String
  refunds : List Refund
deriving DecidableEq, Repr

/-! ### Room model methods (src/unnamed/part_002) -/

/-- JS `booking.guestCount || 1`. -/
def orOne (n : Nat) : Nat := if n = 0 then 1 else n

/-- The status filter `status: { $in: ['confirmed', 'checked_in'] }`. -/
def isConflictStatus (s : BookingStatus) : Bool :=
  s = BookingStatus.confirmed || s = BookingStatus.checked_in

/-- The date clause `checkInDate: { $lt: checkOut }, checkOutDate: { $gt: checkIn }`. -/
def overlapsRange (b : Booking) (checkIn checkOut : Ms) : Bool :=
  decide (b.checkInDate < checkOut) && decide (b.checkOutDate > checkIn)

/-- The `Booking.find` query issued by `checkAvailability` (and, identically,
by `Booking.findOverlapping` in src/unnamed/part_004). -/
def conflictingBookingsFor (bookings : List Booking) (roomId : Nat)
    (checkIn checkOut : Ms) (excludeBookingId : Option Nat) : List Booking :=
  bookings.filter fun b =>
    b.room == roomId && isConflictStatus b.status &&
      overlapsRange b checkIn checkOut &&
      (match excludeBookingId with
       | none => true
       | some e => b.id != e)

/-- `conflictingBookings.reduce((total, booking) => total + (booking.guestCount || 1), 0)`. -/
def occupiedBeds (l : List Booking) : Nat :=
  l.foldl (fun total b => total + orOne b.guestCount) 0

/-- `roomSchema.methods.checkAvailability` (src/unnamed/part_002:119-145). -/
def Room.checkAvailability (room : Room) (bookings : List Booking)
    (checkIn checkOut : Ms) (excludeBookingId : Option Nat) : Bool :=
  let conflicting :=
    conflictingBookingsFor bookings room.id checkIn checkOut excludeBookingId
  if room.type = RoomType.shared ∨ room.type = RoomType.dorm then
    occupiedBeds conflicting + 1 ≤ room.capacity
  else
    conflicting.length == 0

/-- `roomSchema.methods.updateOccupancy` (src/unnamed/part_002:163-185):
recompute `currentOccupancy` from checked-in bookings and derive `status`. -/
def Room.updateOccupancy (room : Room) (bookings : List Booking) : Room :=
  let active := bookings.filter fun b =>
    b.room == room.id && b.status == BookingStatus.checked_in
  let occ := occupiedBeds active
  let st :=
    if room.capacity ≤ occ then RoomStatus.occupied
    else if 0 < occ ∧ (room.type = RoomType.private' ∨ room.type = RoomType.suite) then
      RoomStatus.occupied
    else RoomStatus.available
  { room with currentOccupancy := occ, status := st }

/-! ### Booking model methods (src/unnamed/part_004) -/

/-- `bookingSchema.methods.canModify`: pending/confirmed and strictly more
than 24 hours before check-in. -/
def Booking.canModify (b : Booking) (now : Ms) : Bool :=
  let hoursUntilCheckIn : ℚ := ((b.checkInDate - now : Int) : ℚ) / (msPerHour : ℚ)
  (b.status = BookingStatus.pending || b.status = BookingStatus.confirmed) &&
    decide (24 < hoursUntilCheckIn)

/-- The `feePercentage` tier selection inside `calculateCancellationFee`. -/
def feePercentage (hoursUntilCheckIn : ℚ) : ℚ :=
  if hoursUntilCheckIn < 24 then 100
  else if hoursUntilCheckIn < 48 then 50
  else if hoursUntilCheckIn < 168 then 25
  else 10

/-- `bookingSchema.methods.calculateCancellationFee` (src/unnamed/part_004:219-237),
with the JS `new Date()` made an explicit `now` argument. -/
def Booking.calculateCancellationFee (b : Booking) (now : Ms) : Money :=
  let hoursUntilCheckIn : ℚ := ((b.checkInDate - now : Int) : ℚ) / (msPerHour : ℚ)
  b.pricing.totalAmount * feePercentage hoursUntilCheckIn / 100

/-- First pre-save hook (src/unnamed/part_004:177-188): recompute
`payment.remainingAmount = Math.max(0, totalAmount - paidAmount)`. -/
def bookingPreSave (b : Booking) : Booking :=
  { b with payment :=
      { b.payment with
          remainingAmount := max 0 (b.pricing.totalAmount - b.payment.paidAmount) } }

/-- Second pre-save hook (src/unnamed/part_004:191-202): date validation.
`todayStart` is the JS `new Date(new Date().setHours(0,0,0,0))`. -/
def validateBookingDates (b : Booking) (isNew : Bool) (todayStart : Ms) :
    Except String Unit :=
  if b.checkOutDate ≤ b.checkInDate then
    Except.error "Check-out date must be after check-in date"
  else if isNew && decide (b.checkInDate < todayStart) then
    Except.error "Check-in date cannot be in the past"
  else
    Except.ok ()

/-- `booking.save()`: run both pre-save hooks; the saved document on success. -/
def Booking.save (b : Booking) (isNew : Bool) (todayStart : Ms) :
    Except String Booking :=
  let b' := bookingPreSave b
  match validateBookingDates b' isNew todayStart with
  | Except.error e => Except.error e
  | Except.ok _ => Except.ok b'

/-! ### Payment model methods (src/unnamed/part_004, Payment schema section) -/

/-- Virtual `totalRefunded`: sum of the amounts of succeeded refunds. -/
def Payment.totalRefunded (p : Payment) : Money :=
  (p.refunds.filter fun r => r.status == RefundStatus.succeeded).foldl
    (fun total r => total + r.amount) 0

/-- Virtual `refundableAmount`: zero unless the payment succeeded. -/
def Payment.refundableAmount (p : Payment) : Money :=
  if p.status ≠ PaymentStatus.succeeded then 0
  else p.amount - p.totalRefunded

/-- The two throw sites of `processRefund`, named after the design taxonomy. -/
inductive RefundError
  | invalidRefundState
  | refundExceedsBalance
deriving DecidableEq, Repr

/-- `paymentSchema.methods.processRefund` (src/unnamed/part_004 Payment
section): guard on status and refundable amount, append a pending refund,
derive the payment status. -/
def Payment.processRefund (p : Payment) (amount : Money) :
    Except RefundError Payment :=
  if p.status ≠ PaymentStatus.succeeded then
    Except.error RefundError.invalidRefundState
  else if p.refundableAmount < amount then
    Except.error RefundError.refundExceedsBalance
  else
    let newRefund : Refund := { amount := amount, status := RefundStatus.pending }
    let p' := { p with refunds := p.refunds ++ [newRefund] }
    let totalRefunded := p.totalRefunded + amount
    if p.amount ≤ totalRefunded then
      Except.ok { p' with status := PaymentStatus.refunded }
    else
      Except.ok { p' with status := PaymentStatus.partially_refunded }

/-! ### System state and the booking controller
(src/api/controllers/bookingController.js) -/

/-- The stored documents the controller operations read and write. -/
structure SystemState where
  rooms : List Room
  bookings : List Booking
  payments : List Payment
deriving DecidableEq, Repr

def findRoom (s : SystemState) (roomId : Nat) : Option Room :=
  s.rooms.find? fun r => r.id == roomId

def findBooking (s : SystemState) (bookingId : Nat) : Option Booking :=
  s.bookings.find? fun b => b.id == bookingId

def replaceBooking (bookings : List Booking) (b : Booking) : List Booking :=
  bookings.map fun x => if x.id == b.id then b else x

def replaceRoom (rooms : List Room) (r : Room) : List Room :=
  rooms.map fun x => if x.id == r.id then r else x

/-- The error responses of the booking controller, one per early-return. -/
inductive BookingError
  | roomNotAvailable
  | guestCountExceedsCapacity
  | roomNotAvailableForDates
  | bookingNotFound
  | cannotModify
  | cannotCancel
  | onlyConfirmedCanCheckIn
  | checkInTooEarly
  | onlyCheckedInCanCheckOut
  | validationError (msg : String)
deriving DecidableEq, Repr

/-- A booking-creation request body. -/
structure CreateRequest where
  roomId : Nat
  checkInDate : Ms
  checkOutDate : Ms
  guestCount : Nat
deriving DecidableEq, Repr

/-- `BookingController.createBooking`: room lookup and active check, the
capacity guard, the availability check, the pricing formula
(`nights = Math.ceil(diff/day)`, `base = basePrice*nights*guestCount`,
`taxes = base*0.15`, `total = base+taxes`) and the save. -/
def createBooking (s : SystemState) (req : CreateRequest) (newId : Nat)
    (todayStart : Ms) : Except BookingError (SystemState × Booking) :=
  match findRoom s req.roomId with
  | none => Except.error BookingError.roomNotAvailable
  | some room =>
    if !room.isActive then Except.error BookingError.roomNotAvailable
    else if room.capacity < req.guestCount then
      Except.error BookingError.guestCountExceedsCapacity
    else if !(room.checkAvailability s.bookings req.checkInDate req.checkOutDate none) then
      Except.error BookingError.roomNotAvailableForDates
    else
      let nights := ceilDivInt (req.checkOutDate - req.checkInDate) msPerDay
      let baseAmount : Money := room.basePrice * (nights : ℚ) * (req.guestCount : ℚ)
      let taxes : Money := baseAmount * (15 / 100 : ℚ)
      let totalAmount : Money := baseAmount + taxes
      let booking : Booking :=
        { id := newId
          room := req.roomId
          status := BookingStatus.pending
          checkInDate := req.checkInDate
          checkOutDate := req.checkOutDate
          guestCount := req.guestCount
          pricing := { baseAmount := baseAmount, taxes := taxes, totalAmount := totalAmount }
          payment :=
            { status := BookingPaymentStatus.pending
              paidAmount := 0
              remainingAmount := totalAmount }
          cancellation := none }
      match booking.save true todayStart with
      | Except.error e => Except.error (BookingError.validationError e)
      | Except.ok saved =>
        Except.ok ({ s with bookings := s.bookings ++ [saved] }, saved)

/-- The update body of `BookingController.updateBooking` (dates and guest
count; other fields do not bear on the verified claims). -/
structure UpdatePatch where
  checkInDate : Option Ms
  checkOutDate : Option Ms
  guestCount : Option Nat
deriving DecidableEq, Repr

/-- `BookingController.updateBooking`: `canModify` guard; when dates change,
re-check availability excluding the booking itself and recompute pricing,
setting `payment.remainingAmount = totalAmount - paidAmount` (unclamped,
line 319) before the save re-derives it; `Object.assign` then save. -/
def updateBooking (s : SystemState) (bookingId : Nat) (patch : UpdatePatch)
    (now : Ms) : Except BookingError (SystemState × Booking) :=
  match findBooking s bookingId with
  | none => Except.error BookingError.bookingNotFound
  | some booking =>
    if !(booking.canModify now) then Except.error BookingError.cannotModify
    else
      let datesChange := patch.checkInDate.isSome || patch.checkOutDate.isSome
      let newCheckIn := patch.checkInDate.getD booking.checkInDate
      let newCheckOut := patch.checkOutDate.getD booking.checkOutDate
      let continue' : Except BookingError (Pricing × PaymentInfo) :=
        if datesChange then
          match findRoom s booking.room with
          | none => Except.error BookingError.roomNotAvailable
          | some room =>
            if !(room.checkAvailability s.bookings newCheckIn newCheckOut (some booking.id)) then
              Except.error BookingError.roomNotAvailableForDates
            else
              let nights := ceilDivInt (newCheckOut - newCheckIn) msPerDay
              let guestCount := patch.guestCount.getD booking.guestCount
              let baseAmount : Money := room.basePrice * (nights : ℚ) * (guestCount : ℚ)
              let taxes : Money := baseAmount * (15 / 100 : ℚ)
              let totalAmount : Money := baseAmount + taxes
              Except.ok
                ({ baseAmount := baseAmount, taxes := taxes, totalAmount := totalAmount },
                 { booking.payment with
                     remainingAmount := totalAmount - booking.payment.paidAmount })
        else Except.ok (booking.pricing, booking.payment)
      match continue' with
      | Except.error e => Except.error e
      | Except.ok (pricing', payment') =>
        let b' :=
          { booking with
              checkInDate := newCheckIn
              checkOutDate := newCheckOut
              guestCount := patch.guestCount.getD booking.guestCount
              pricing := pricing'
              payment := payment' }
        match b'.save false 0 with
        | Except.error e => Except.error (BookingError.validationError e)
        | Except.ok saved =>
          Except.ok ({ s with bookings := replaceBooking s.bookings saved }, saved)

/-- `BookingController.cancelBooking`: status guard, cancellation fee,
`refundAmount = Math.max(0, paidAmount - cancellationFee)`, status change
and save; returns the response payload `(booking, cancellationFee,
refundAmount)`.  No money is moved (the refund processing is a TODO in the
source). -/
def cancelBooking (s : SystemState) (bookingId : Nat) (now : Ms) :
    Except BookingError (SystemState × Booking × Money × Money) :=
  match findBooking s bookingId with
  | none => Except.error BookingError.bookingNotFound
  | some booking =>
    if !(booking.status = BookingStatus.pending ∨
          booking.status = BookingStatus.confirmed : Bool) then
      Except.error BookingError.cannotCancel
    else
      let cancellationFee := booking.calculateCancellationFee now
      let refundAmount := max 0 (booking.payment.paidAmount - cancellationFee)
      let b' :=
        { booking with
            status := BookingStatus.cancelled
            cancellation := some { refundAmount := refundAmount } }
      match b'.save false 0 with
      | Except.error e => Except.error (BookingError.validationError e)
      | Except.ok saved =>
        Except.ok
          ({ s with bookings := replaceBooking s.bookings saved },
           saved, cancellationFee, refundAmount)

/-- `BookingController.checkIn`: only confirmed bookings; the
`daysDiff < -1` early-check guard; set `checked_in`, save, then
`room.updateOccupancy()`. -/
def checkInOp (s : SystemState) (bookingId : Nat) (now : Ms) :
    Except BookingError (SystemState × Booking) :=
  match findBooking s bookingId with
  | none => Except.error BookingError.bookingNotFound
  | some booking =>
    if booking.status ≠ BookingStatus.confirmed then
      Except.error BookingError.onlyConfirmedCanCheckIn
    else
      let daysDiff := floorDivInt (now - booking.checkInDate) msPerDay
      if daysDiff < -1 then Except.error BookingError.checkInTooEarly
      else
        let b' := { booking with status := BookingStatus.checked_in }
        match b'.save false 0 with
        | Except.error e => Except.error (BookingError.validationError e)
        | Except.ok saved =>
          let bookings' := replaceBooking s.bookings saved
          let rooms' :=
            match findRoom s booking.room with
            | none => s.rooms
            | some room => replaceRoom s.rooms (room.updateOccupancy bookings')
          Except.ok ({ s with bookings := bookings', rooms := rooms' }, saved)

/-- `BookingController.checkOut`: only checked-in bookings; set
`checked_out`, save, then `room.updateOccupancy()`. -/
def checkOutOp (s : SystemState) (bookingId : Nat) :
    Except BookingError (SystemState × Booking) :=
  match findBooking s bookingId with
  | none => Except.error BookingError.bookingNotFound
  | some booking =>
    if booking.status ≠ BookingStatus.checked_in then
      Except.error BookingError.onlyCheckedInCanCheckOut
    else
      let b' := { booking with status := BookingStatus.checked_out }
      match b'.save false 0 with
      | Except.error e => Except.error (BookingError.validationError e)
      | Except.ok saved =>
        let bookings' := replaceBooking s.bookings saved
        let rooms' :=
          match findRoom s booking.room with
          | none => s.rooms
          | some room => replaceRoom s.rooms (room.updateOccupancy bookings')
        Except.ok ({ s with bookings := bookings', rooms := rooms' }, saved)

/-! ### Payment reconciler

The payment controller (`paymentController.handleWebhook`, reached through
src/api/routes/payments.js) is not among the sources here; the functions in
this section are modelled from the design document. -/

inductive GatewayEventKind
  | succeeded
  | failed
  | cancelled
deriving DecidableEq, Repr

/-- A verified gateway webhook event: a kind plus the gateway reference
(payment-intent id) used as the idempotency key. -/
structure GatewayEvent where
  kind : GatewayEventKind
  gatewayRef : String
deriving DecidableEq, Repr

def findPaymentByRef (payments : List Payment) (ref : String) : Option Payment :=
  payments.find? fun p => p.stripePaymentIntentId == some ref

def replacePayment (payments : List Payment) (p : Payment) : List Payment :=
  payments.map fun q => if q.id == p.id then p else q

/-- Modelled from the spec: `initiatePayment` of §6 — the payment controller
that "owns creating the local Payment record in `pending` status first" is
not among the sources; the amount defaults to the booking's outstanding
balance. -/
def initiatePayment (s : SystemState) (bookingId : Nat) (newPaymentId : Nat)
    (ref : String) : SystemState :=
  match findBooking s bookingId with
  | none => s
  | some b =>
    let p : Payment :=
      { id := newPaymentId
        booking := bookingId
        amount := b.payment.remainingAmount
        status := PaymentStatus.pending
        stripePaymentIntentId := some ref
        refunds := [] }
    { s with payments := s.payments ++ [p] }

/-- Modelled from the spec: the "Succeeded" branch of `applyGatewayEvent`
(§4.4) — the webhook controller is not among the sources.  Match the
Payment by gateway reference (no match: log and drop); discard the event if
that Payment already succeeded (idempotency key); otherwise mark it
succeeded, credit `Booking.paidAmount`, recompute `remainingAmount`, derive
`Booking.payment.status`, and confirm a pending fully-paid booking.
Returns the new state together with the Booking document it saved. -/
def applySucceeded (s : SystemState) (ref : String) :
    SystemState × Option Booking :=
  match findPaymentByRef s.payments ref with
  | none => (s, none)
  | some p =>
    if p.status = PaymentStatus.succeeded then (s, none)
    else
      let p' := { p with status := PaymentStatus.succeeded }
      let payments' := replacePayment s.payments p'
      match findBooking s p.booking with
      | none => ({ s with payments := payments' }, none)
      | some b =>
        let paid := b.payment.paidAmount + p.amount
        let remaining := max 0 (b.pricing.totalAmount - paid)
        let payStatus :=
          if remaining ≤ 0 then BookingPaymentStatus.paid
          else BookingPaymentStatus.partial'
        let status' :=
          if remaining ≤ 0 ∧ b.status = BookingStatus.pending then
            BookingStatus.confirmed
          else b.status
        let b' :=
          { b with
              status := status'
              payment :=
                { status := payStatus, paidAmount := paid, remainingAmount := remaining } }
        ({ s with payments := payments', bookings := replaceBooking s.bookings b' },
         some b')

/-- Modelled from the spec: the "Failed" / "Cancelled" branches of
`applyGatewayEvent` (§4.4): mark the matched Payment failed, no Booking
mutation; idempotent on re-delivery. -/
def applyFailedEvent (s : SystemState) (ref : String) : SystemState :=
  match findPaymentByRef s.payments ref with
  | none => s
  | some p =>
    if p.status = PaymentStatus.failed then s
    else { s with payments := replacePayment s.payments { p with status := PaymentStatus.failed } }

/-- Modelled from the spec: `applyGatewayEvent(event)` (§4.4), the single
webhook entry point dispatching on the event kind — the webhook controller
is not among the sources. -/
def applyGatewayEvent (s : SystemState) (e : GatewayEvent) : SystemState :=
  match e.kind with
  | GatewayEventKind.succeeded => (applySucceeded s e.gatewayRef).1
  | GatewayEventKind.failed => applyFailedEvent s e.gatewayRef
  | GatewayEventKind.cancelled => applyFailedEvent s e.gatewayRef

/-! ### Exposed operations, as a step function -/

/-- One exposed operation of the engine. -/
inductive Op
  | create (req : CreateRequest) (newId : Nat) (todayStart : Ms)
  | update (bookingId : Nat) (patch : UpdatePatch) (now : Ms)
  | cancel (bookingId : Nat) (now : Ms)
  | checkin (bookingId : Nat) (now : Ms)
  | checkout (bookingId : Nat)
  | initiate (bookingId : Nat) (newPaymentId : Nat) (ref : String)
  | gateway (e : GatewayEvent)
deriving DecidableEq, Repr

/-- Apply one operation; a rejected request leaves the state unchanged. -/
def stepOp (s : SystemState) (op : Op) : SystemState :=
  match op with
  | Op.create req newId todayStart =>
    match createBooking s req newId todayStart with
    | Except.ok (s', _) => s'
    | Except.error _ => s
  | Op.update bookingId patch now =>
    match updateBooking s bookingId patch now with
    | Except.ok (s', _) => s'
    | Except.error _ => s
  | Op.cancel bookingId now =>
    match cancelBooking s bookingId now with
    | Except.ok (s', _) => s'
    | Except.error _ => s
  | Op.checkin bookingId now =>
    match checkInOp s bookingId now with
    | Except.ok (s', _) => s'
    | Except.error _ => s
  | Op.checkout bookingId =>
    match checkOutOp s bookingId with
    | Except.ok (s', _) => s'
    | Except.error _ => s
  | Op.initiate bookingId newPaymentId ref => initiatePayment s bookingId newPaymentId ref
  | Op.gateway e => applyGatewayEvent s e

/-- Run a sequence of operations from a state. -/
def runOps (s : SystemState) (ops : List Op) : SystemState :=
  ops.foldl stepOp s

/-- The Booking document an operation saved, if any. -/
def opSavedBooking (s : SystemState) (op : Op) : Option Booking :=
  match op with
  | Op.create req newId todayStart =>
    match createBooking s req newId todayStart with
    | Except.ok (_, b) => some b
    | Except.error _ => none
  | Op.update bookingId patch now =>
    match updateBooking s bookingId patch now with
    | Except.ok (_, b) => some b
    | Except.error _ => none
  | Op.cancel bookingId now =>
    match cancelBooking s bookingId now with
    | Except.ok (_, b, _, _) => some b
    | Except.error _ => none
  | Op.checkin bookingId now =>
    match checkInOp s bookingId now with
    | Except.ok (_, b) => some b
    | Except.error _ => none
  | Op.checkout bookingId =>
    match checkOutOp s bookingId with
    | Except.ok (_, b) => some b
    | Except.error _ => none
  | Op.initiate _ _ _ => none
  | Op.gateway e =>
    match e.kind with
    | GatewayEventKind.succeeded => (applySucceeded s e.gatewayRef).2
    | _ => none

/-- Number of guests occupying a room at instant `t`: the sum of
`guestCount` over bookings in status confirmed or checked_in whose
`[checkInDate, checkOutDate)` range contains `t`. -/
def occupancyAt (bookings : List Booking) (roomId : Nat) (t : Ms) : Nat :=
  occupiedBeds (bookings.filter fun b =>
    b.room == roomId && isConflictStatus b.status &&
      decide (b.checkInDate ≤ t) && decide (t < b.checkOutDate))

/-! ### Specification-side definitions for refinement comparisons -/

/-- The cancellation-fee policy exactly as §4.5 of the design words it:
tiered percentage of the total, bands inclusive on their lower bound. -/
def cancellationFeeSpec (totalAmount : Money) (hoursUntilCheckIn : ℚ) : Money :=
  let pct : ℚ :=
    if hoursUntilCheckIn < 24 then 100
    else if 24 ≤ hoursUntilCheckIn ∧ hoursUntilCheckIn < 48 then 50
    else if 48 ≤ hoursUntilCheckIn ∧ hoursUntilCheckIn < 168 then 25
    else 10
  totalAmount * pct / 100

/-- The refund guards as amended: `InvalidRefundState` unless the payment's
status is `succeeded` (so a `partially_refunded` payment is rejected);
`RefundExceedsBalance` when the amount exceeds
`payment.amount - sum(succeeded refunds)`; otherwise append a pending
refund record and derive the status. -/
def processRefundSpec (p : Payment) (amount : Money) :
    Except RefundError Payment :=
  if p.status ≠ PaymentStatus.succeeded then
    Except.error RefundError.invalidRefundState
  else if p.amount - p.totalRefunded < amount then
    Except.error RefundError.refundExceedsBalance
  else
    let newRefund : Refund := { amount := amount, status := RefundStatus.pending }
    let st :=
      if p.amount ≤ p.totalRefunded + amount then PaymentStatus.refunded
      else PaymentStatus.partially_refunded
    Except.ok { p with refunds := p.refunds ++ [newRefund], status := st }

/-! ### Concrete scenario data -/

def day : Ms := 86400000

/-- A dorm room with capacity 6. -/
def c1Room : Room :=
  { id := 1, type := RoomType.dorm, capacity := 6, currentOccupancy := 0,
    basePrice := 10, status := RoomStatus.available, isActive := true }

/-- A confirmed two-guest booking of room 1 for `[day, 2*day)`. -/
def c1Booking (i : Nat) : Booking :=
  { id := i, room := 1, status := BookingStatus.confirmed,
    checkInDate := day, checkOutDate := 2 * day, guestCount := 2,
    pricing := { baseAmount := 20, taxes := 3, totalAmount := 23 },
    payment := { status := BookingPaymentStatus.paid, paidAmount := 23,
                 remainingAmount := 0 },
    cancellation := none }

/-- Room 1 with two overlapping confirmed bookings of 2 guests each. -/
def c1State : SystemState :=
  { rooms := [c1Room], bookings := [c1Booking 1, c1Booking 2], payments := [] }

/-- A request for 3 further guests on the same dates. -/
def c1Request : CreateRequest :=
  { roomId := 1, checkInDate := day, checkOutDate := 2 * day, guestCount := 3 }

/-- A dorm room with capacity 2. -/
def c2Room : Room :=
  { id := 1, type := RoomType.dorm, capacity := 2, currentOccupancy := 0,
    basePrice := 10, status := RoomStatus.available, isActive := true }

def c2State : SystemState :=
  { rooms := [c2Room], bookings := [], payments := [] }

/-- Create and fully pay a 1-guest booking; then create and fully pay an
overlapping 2-guest booking of the same dorm; then check both in. -/
def c2Trace : List Op :=
  [ Op.create { roomId := 1, checkInDate := day, checkOutDate := 2 * day,
                guestCount := 1 } 1 0,
    Op.initiate 1 1 "pi_1",
    Op.gateway { kind := GatewayEventKind.succeeded, gatewayRef := "pi_1" },
    Op.create { roomId := 1, checkInDate := day, checkOutDate := 2 * day,
                guestCount := 2 } 2 0,
    Op.initiate 2 2 "pi_2",
    Op.gateway { kind := GatewayEventKind.succeeded, gatewayRef := "pi_2" },
    Op.checkin 1 day,
    Op.checkin 2 day ]

/-! The states the C2 trace passes through. -/

def c2B1 (st : BookingStatus) (pay : PaymentInfo) : Booking :=
  { id := 1, room := 1, status := st,
    checkInDate := day, checkOutDate := 2 * day, guestCount := 1,
    pricing := { baseAmount := 10, taxes := 3/2, totalAmount := 23/2 },
    payment := pay, cancellation := none }

def c2B2 (st : BookingStatus) (pay : PaymentInfo) : Booking :=
  { id := 2, room := 1, status := st,
    checkInDate := day, checkOutDate := 2 * day, guestCount := 2,
    pricing := { baseAmount := 20, taxes := 3, totalAmount := 23 },
    payment := pay, cancellation := none }

def payPending1 : PaymentInfo :=
  { status := BookingPaymentStatus.pending, paidAmount := 0, remainingAmount := 23/2 }

def payPending2 : PaymentInfo :=
  { status := BookingPaymentStatus.pending, paidAmount := 0, remainingAmount := 23 }

def payPaid1 : PaymentInfo :=
  { status := BookingPaymentStatus.paid, paidAmount := 23/2, remainingAmount := 0 }

def payPaid2 : PaymentInfo :=
  { status := BookingPaymentStatus.paid, paidAmount := 23, remainingAmount := 0 }

def c2P1 (st : PaymentStatus) : Payment :=
  { id := 1, booking := 1, amount := 23/2, status := st,
    stripePaymentIntentId := some "pi_1", refunds := [] }

def c2P2 (st : PaymentStatus) : Payment :=
  { id := 2, booking := 2, amount := 23, status := st,
    stripePaymentIntentId := some "pi_2", refunds := [] }

def c2S1 : SystemState :=
  { rooms := [c2Room], bookings := [c2B1 BookingStatus.pending payPending1],
    payments := [] }

def c2S2 : SystemState :=
  { c2S1 with payments := [c2P1 PaymentStatus.pending] }

def c2S3 : SystemState :=
  { rooms := [c2Room], bookings := [c2B1 BookingStatus.confirmed payPaid1],
    payments := [c2P1 PaymentStatus.succeeded] }

def c2S4 : SystemState :=
  { c2S3 with bookings :=
      [c2B1 BookingStatus.confirmed payPaid1, c2B2 BookingStatus.pending payPending2] }

def c2S5 : SystemState :=
  { c2S4 with payments := [c2P1 PaymentStatus.succeeded, c2P2 PaymentStatus.pending] }

def c2S6 : SystemState :=
  { rooms := [c2Room],
    bookings := [c2B1 BookingStatus.confirmed payPaid1, c2B2 BookingStatus.confirmed payPaid2],
    payments := [c2P1 PaymentStatus.succeeded, c2P2 PaymentStatus.succeeded] }

def c2S7 : SystemState :=
  { rooms := [{ c2Room with currentOccupancy := 1 }],
    bookings := [c2B1 BookingStatus.checked_in payPaid1, c2B2 BookingStatus.confirmed payPaid2],
    payments := [c2P1 PaymentStatus.succeeded, c2P2 PaymentStatus.succeeded] }

def c2S8 : SystemState :=
  { rooms := [{ c2Room with currentOccupancy := 3, status := RoomStatus.occupied }],
    bookings := [c2B1 BookingStatus.checked_in payPaid1, c2B2 BookingStatus.checked_in payPaid2],
    payments := [c2P1 PaymentStatus.succeeded, c2P2 PaymentStatus.succeeded] }

/-- A payment of 100 already partially refunded (30 succeeded). -/
def c6Payment : Payment :=
  { id := 1, booking := 1, amount := 100,
    status := PaymentStatus.partially_refunded,
    stripePaymentIntentId := none,
    refunds := [({ amount := 30, status := RefundStatus.succeeded } : Refund)] }

/-! Scenario data for the witnesses. -/

def c7Room : Room :=
  { id := 7, type := RoomType.private', capacity := 2, currentOccupancy := 0,
    basePrice := 50, status := RoomStatus.available, isActive := true }

def c8Req : CreateRequest :=
  { roomId := 1, checkInDate := day, checkOutDate := 2 * day, guestCount := 1 }

def c9Booking : Booking :=
  { id := 9, room := 1, status := BookingStatus.pending,
    checkInDate := 10 * day, checkOutDate := 11 * day, guestCount := 2,
    pricing := { baseAmount := 200, taxes := 30, totalAmount := 230 },
    payment := { status := BookingPaymentStatus.pending, paidAmount := 0,
                 remainingAmount := 230 },
    cancellation := none }

def c9Saved : Booking :=
  { c9Booking with
      status := BookingStatus.cancelled
      cancellation := some { refundAmount := 0 } }

def c9State : SystemState :=
  { rooms := [], bookings := [c9Booking], payments := [] }

def c9Now : Ms := 10 * day - 72 * msPerHour

def c10Room : Room :=
  { id := 3, type := RoomType.dorm, capacity := 4, currentOccupancy := 2,
    basePrice := 25, status := RoomStatus.maintenance, isActive := true }


/-! ### General lemmas about the embedding -/

theorem save_ok_eq {b b' : Booking} {isNew : Bool} {todayStart : Ms}
    (h : b.save isNew todayStart = Except.ok b') : b' = bookingPreSave b := by
  simp only [Booking.save] at h
  split at h
  · exact absurd h (by simp)
  · simpa using h.symm

theorem save_ok_dates {b b' : Booking} {isNew : Bool} {todayStart : Ms}
    (h : b.save isNew todayStart = Except.ok b') :
    b.checkInDate < b.checkOutDate := by
  simp only [Booking.save] at h
  split at h
  case h_1 e heq =>
    exact absurd h (by simp)
  case h_2 u heq =>
    simp only [validateBookingDates, bookingPreSave] at heq
    split at heq
    · exact absurd heq (by simp)
    · split at heq
      · exact absurd heq (by simp)
      · simp_all only [not_le]

theorem preSave_remaining (b : Booking) :
    (bookingPreSave b).payment.remainingAmount =
      max 0 ((bookingPreSave b).pricing.totalAmount -
        (bookingPreSave b).payment.paidAmount) := by
  rfl

theorem one_le_ceilDiv_of_pos {a : Int} (ha : 0 < a) :
    1 ≤ ceilDivInt a msPerDay := by
  unfold ceilDivInt
  have hneg : (-a) < 0 := by omega
  have h2 : (-a).fdiv msPerDay < 0 := Int.fdiv_neg' hneg (by decide)
  generalize (-a).fdiv msPerDay = k at h2 ⊢
  omega

/-! Literal-evaluation lemmas used to drive simp through the trace. -/

theorem ceilDivInt_day_one : ceilDivInt 86400000 86400000 = 1 := by decide

theorem floorDivInt_zero_day : floorDivInt 0 86400000 = 0 := by decide

theorem pending_ne_succeeded : PaymentStatus.pending ≠ PaymentStatus.succeeded := by decide

theorem ref_beq_ff : (("pi_1" : String) == "pi_2") = false := by decide

theorem ref_beq_ff2 : (("pi_2" : String) == "pi_1") = false := by decide

theorem beq_one_two : ((1 : Nat) == 2) = false := by decide

theorem beq_two_one : ((2 : Nat) == 1) = false := by decide

theorem dorm_ne_private : RoomType.dorm ≠ RoomType.private' := by decide

theorem dorm_ne_suite : RoomType.dorm ≠ RoomType.suite := by decide

/-! ### Claim theorems -/

/-- C5: the cancellation fee is `totalAmount × p` with p = 100% below 24h,
50% on [24h, 48h), 25% on [48h, 168h) and 10% from 168h on; in particular
the fee at exactly 24h is 50%, at exactly 48h is 25%, and at exactly 168h
is 10%. -/
theorem calculateCancellationFee_matches_policy :
    (∀ (b : Booking) (now : Ms),
        b.calculateCancellationFee now =
          cancellationFeeSpec b.pricing.totalAmount
            (((b.checkInDate - now : Int) : ℚ) / (msPerHour : ℚ))) ∧
    feePercentage 24 = 50 ∧ feePercentage 48 = 25 ∧ feePercentage 168 = 10 := by
  have hp : ∀ h : ℚ, feePercentage h =
      (if h < 24 then (100 : ℚ)
       else if 24 ≤ h ∧ h < 48 then 50
       else if 48 ≤ h ∧ h < 168 then 25
       else 10) := by
    intro h
    unfold feePercentage
    by_cases h1 : h < 24
    · simp [h1]
    · by_cases h2 : h < 48
      · simp [h1, h2, not_lt.mp h1]
      · by_cases h3 : h < 168
        · simp [h1, h2, h3, not_lt.mp h2,
            le_trans (by norm_num : (24 : ℚ) ≤ 48) (not_lt.mp h2)]
        · simp [h1, h2, h3, not_lt.mp h3,
            le_trans (by norm_num : (24 : ℚ) ≤ 168) (not_lt.mp h3),
            le_trans (by norm_num : (48 : ℚ) ≤ 168) (not_lt.mp h3)]
  refine ⟨fun b now => ?_, by norm_num [feePercentage], by norm_num [feePercentage],
    by norm_num [feePercentage]⟩
  simp only [Booking.calculateCancellationFee, cancellationFeeSpec]
  rw [hp]

/-- C6 counterexample: a payment of 100 in status `partially_refunded` with
30 already refunded; a further refund of 20 is within the claimed
refundable amount (100 − 30 = 70) yet `processRefund` signals
`InvalidRefundState`. -/
theorem processRefund_partially_refunded_rejected :
    c6Payment.processRefund 20 = Except.error RefundError.invalidRefundState ∧
    (20 : ℚ) ≤ c6Payment.amount - c6Payment.totalRefunded := by
  exact ⟨rfl, by norm_num [c6Payment, Payment.totalRefunded]⟩

/-- C6 (amended): `processRefund` signals `InvalidRefundState` unless the
payment's status is `succeeded` — a `partially_refunded` payment is
rejected — and otherwise signals `RefundExceedsBalance` iff the amount
exceeds `payment.amount − sum(succeeded refunds)`, else appends a pending
refund record and derives the status. -/
theorem processRefund_guards :
    ∀ (p : Payment) (amount : Money),
      p.processRefund amount = processRefundSpec p amount := by
  intro p amount
  unfold Payment.processRefund processRefundSpec Payment.refundableAmount
  by_cases hs : p.status = PaymentStatus.succeeded
  · simp [hs]
    split_ifs <;> rfl
  · simp [hs]

/-- C1: for a dorm of capacity 6 already holding two overlapping confirmed
bookings of 2 guests each, a creation request for 3 more guests is accepted
by `createBooking` even though 4 + 3 > 6: the availability check compares
`occupiedBeds + 1` against the capacity and ignores the requested guest
count. -/
theorem createBooking_overfills_dorm :
    (createBooking c1State c1Request 3 0).isOk = true ∧
    c1Room.capacity <
      occupiedBeds (conflictingBookingsFor c1State.bookings c1Room.id
        c1Request.checkInDate c1Request.checkOutDate none) +
        c1Request.guestCount := by
  exact ⟨by decide, by decide⟩

/-- C2: a trace of exposed operations (two creations, two payments, two
check-ins) drives a capacity-2 dorm to an instant with 3 overlapping
guests in status checked_in, and to `currentOccupancy = 3`: the occupancy
≤ capacity invariant is violated in a reachable state. -/
theorem occupancy_invariant_violated :
    c2Room.capacity = 2 ∧
    occupancyAt (runOps c2State c2Trace).bookings c2Room.id day = 3 ∧
    ((runOps c2State c2Trace).rooms.map Room.currentOccupancy) = [3] := by
  have h1 : stepOp c2State (Op.create ⟨1, day, 2 * day, 1⟩ 1 0) = c2S1 := by
    norm_num [stepOp, createBooking, findRoom, Room.checkAvailability,
      conflictingBookingsFor, occupiedBeds, orOne, isConflictStatus, overlapsRange, Booking.save,
      bookingPreSave, validateBookingDates, ceilDivInt_day_one, msPerDay, day, c2State, c2Room,
      c2S1, c2B1, payPending1, max_def]
  have h2 : stepOp c2S1 (Op.initiate 1 1 "pi_1") = c2S2 := by
    norm_num [stepOp, initiatePayment, findBooking, c2S1, c2S2, c2B1, c2P1, payPending1]
  have h3 : stepOp c2S2 (Op.gateway ⟨GatewayEventKind.succeeded, "pi_1"⟩) = c2S3 := by
    norm_num [stepOp, applyGatewayEvent, applySucceeded, findPaymentByRef, findBooking,
      List.find?, replacePayment, replaceBooking, c2S2, c2S1, c2S3, c2B1, c2P1, payPending1,
      payPaid1, c2Room, max_def, pending_ne_succeeded]
  have h4 : stepOp c2S3 (Op.create ⟨1, day, 2 * day, 2⟩ 2 0) = c2S4 := by
    norm_num [stepOp, createBooking, findRoom, Room.checkAvailability,
      conflictingBookingsFor, occupiedBeds, orOne, isConflictStatus, overlapsRange, Booking.save,
      bookingPreSave, validateBookingDates, ceilDivInt_day_one, msPerDay, day, c2S3, c2S4, c2Room,
      c2B1, c2B2, payPaid1, payPending2, c2P1, max_def]
  have h5 : stepOp c2S4 (Op.initiate 2 2 "pi_2") = c2S5 := by
    norm_num [stepOp, initiatePayment, findBooking, c2S4, c2S3, c2S5, c2B1, c2B2, c2P1, c2P2,
      payPaid1, payPending2]
  have h6 : stepOp c2S5 (Op.gateway ⟨GatewayEventKind.succeeded, "pi_2"⟩) = c2S6 := by
    norm_num [stepOp, applyGatewayEvent, applySucceeded, findPaymentByRef, findBooking,
      List.find?, replacePayment, replaceBooking, c2S5, c2S4, c2S3, c2S6, c2B1, c2B2, c2P1, c2P2,
      payPaid1, payPending2, payPaid2, c2Room, max_def, pending_ne_succeeded, ref_beq_ff,
      ref_beq_ff2, beq_one_two, beq_two_one]
  have h7 : stepOp c2S6 (Op.checkin 1 day) = c2S7 := by
    norm_num [stepOp, checkInOp, findBooking, findRoom, Booking.save, bookingPreSave,
      validateBookingDates, replaceBooking, replaceRoom, Room.updateOccupancy, occupiedBeds,
      orOne, floorDivInt_zero_day, floorDivInt, msPerDay, day, c2S6, c2S7, c2B1, c2B2, c2Room,
      payPaid1, payPaid2, max_def, beq_one_two, beq_two_one, List.find?, List.filter, List.foldl,
      beq_iff_eq, dorm_ne_private, dorm_ne_suite]
  have h8 : stepOp c2S7 (Op.checkin 2 day) = c2S8 := by
    norm_num [stepOp, checkInOp, findBooking, findRoom, Booking.save, bookingPreSave,
      validateBookingDates, replaceBooking, replaceRoom, Room.updateOccupancy, occupiedBeds,
      orOne, floorDivInt_zero_day, floorDivInt, msPerDay, day, c2S7, c2S8, c2B1, c2B2, c2Room,
      payPaid1, payPaid2, max_def, beq_one_two, beq_two_one, List.find?, List.filter, List.foldl,
      beq_iff_eq, dorm_ne_private, dorm_ne_suite]
  have hrun : runOps c2State c2Trace = c2S8 := by
    show List.foldl stepOp c2State c2Trace = c2S8
    rw [show c2Trace = [Op.create ⟨1, day, 2 * day, 1⟩ 1 0,
      Op.initiate 1 1 "pi_1",
      Op.gateway ⟨GatewayEventKind.succeeded, "pi_1"⟩,
      Op.create ⟨1, day, 2 * day, 2⟩ 2 0,
      Op.initiate 2 2 "pi_2",
      Op.gateway ⟨GatewayEventKind.succeeded, "pi_2"⟩,
      Op.checkin 1 day, Op.checkin 2 day] from rfl]
    simp only [List.foldl]
    rw [h1, h2, h3, h4, h5, h6, h7, h8]
  refine ⟨rfl, ?_, ?_⟩ <;> rw [hrun] <;> decide

/-- Replacing the found payment by one with the same id and gateway
reference makes it the payment found afterwards. -/
theorem findPaymentByRef_replacePayment (ps : List Payment) (ref : String)
    (p p' : Payment) (hfind : findPaymentByRef ps ref = some p)
    (hid : p'.id = p.id)
    (href : p'.stripePaymentIntentId = p.stripePaymentIntentId) :
    findPaymentByRef (replacePayment ps p') ref = some p' := by
  induction ps with
  | nil => simp [findPaymentByRef] at hfind
  | cons h t ih =>
    simp only [findPaymentByRef, List.find?] at hfind
    simp only [findPaymentByRef, replacePayment, List.map, List.find?]
    cases hh : (h.stripePaymentIntentId == some ref) with
    | true =>
      simp only [hh] at hfind
      have hp : h = p := by simpa using hfind
      have hcond : (h.id == p'.id) = true := by simp [hp, hid]
      have hpr : (p'.stripePaymentIntentId == some ref) = true := by
        rw [href]; exact hp ▸ hh
      simp [hcond, hpr]
    | false =>
      simp only [hh] at hfind
      have hpred := List.find?_some hfind
      have hpr : (p'.stripePaymentIntentId == some ref) = true := by
        rw [href]; exact hpred
      cases hc : (h.id == p'.id) with
      | true => simp [hc, hpr]
      | false =>
        simp only [hc, Bool.false_eq_true, if_false, hh]
        exact ih hfind

/-- C3: the webhook entry point is idempotent for "succeeded" events — a
second delivery with the same gateway reference is a no-op: the matched
payment is already `succeeded`, so neither Booking nor Payment state
changes and `paidAmount` is credited only once.  (`applyGatewayEvent` is
modelled from §4.4 of the design; the payment controller is not among the
sources.) -/
theorem applyGatewayEvent_succeeded_idempotent :
    ∀ (s : SystemState) (ref : String),
      applyGatewayEvent (applyGatewayEvent s ⟨GatewayEventKind.succeeded, ref⟩)
          ⟨GatewayEventKind.succeeded, ref⟩ =
        applyGatewayEvent s ⟨GatewayEventKind.succeeded, ref⟩ := by
  intro s ref
  show (applySucceeded (applySucceeded s ref).1 ref).1 = (applySucceeded s ref).1
  cases hf : findPaymentByRef s.payments ref with
  | none =>
    simp only [applySucceeded, hf]
  | some p =>
    by_cases hs : p.status = PaymentStatus.succeeded
    · simp only [applySucceeded, hf, if_pos hs]
    · have hfind2 : findPaymentByRef
          (replacePayment s.payments { p with status := PaymentStatus.succeeded }) ref =
          some { p with status := PaymentStatus.succeeded } :=
        findPaymentByRef_replacePayment s.payments ref p _ hf rfl rfl
      cases hb : findBooking s p.booking with
      | none =>
        simp [applySucceeded, hf, hs, hb, hfind2]
      | some b =>
        simp [applySucceeded, hf, hs, hb, hfind2]

theorem createBooking_ok_shape {s : SystemState} {req : CreateRequest}
    {newId : Nat} {today : Ms} {s' : SystemState} {b : Booking}
    (h : createBooking s req newId today = Except.ok (s', b)) :
    ∃ b0, b = bookingPreSave b0 := by
  unfold createBooking at h
  simp only [] at h
  repeat' split at h
  all_goals try exact Except.noConfusion h
  all_goals
    rename_i saved heq
    cases h
    exact ⟨_, save_ok_eq heq⟩

theorem updateBooking_ok_shape {s : SystemState} {bookingId : Nat}
    {patch : UpdatePatch} {now : Ms} {s' : SystemState} {b : Booking}
    (h : updateBooking s bookingId patch now = Except.ok (s', b)) :
    ∃ b0, b = bookingPreSave b0 := by
  unfold updateBooking at h
  simp only [] at h
  repeat' split at h
  all_goals try exact Except.noConfusion h
  all_goals
    rename_i saved heq
    cases h
    exact ⟨_, save_ok_eq heq⟩

theorem cancelBooking_ok_shape {s : SystemState} {bookingId : Nat} {now : Ms}
    {s' : SystemState} {b : Booking} {fee refund : Money}
    (h : cancelBooking s bookingId now = Except.ok (s', b, fee, refund)) :
    ∃ b0, b = bookingPreSave b0 := by
  unfold cancelBooking at h
  simp only [] at h
  repeat' split at h
  all_goals try exact Except.noConfusion h
  all_goals
    rename_i saved heq
    cases h
    exact ⟨_, save_ok_eq heq⟩

theorem checkInOp_ok_shape {s : SystemState} {bookingId : Nat} {now : Ms}
    {s' : SystemState} {b : Booking}
    (h : checkInOp s bookingId now = Except.ok (s', b)) :
    ∃ b0, b = bookingPreSave b0 := by
  unfold checkInOp at h
  simp only [] at h
  split at h
  · exact Except.noConfusion h
  · split at h
    · exact Except.noConfusion h
    · split at h
      · exact Except.noConfusion h
      · split at h
        · exact Except.noConfusion h
        · rename_i saved heq
          cases h
          exact ⟨_, save_ok_eq heq⟩

theorem checkOutOp_ok_shape {s : SystemState} {bookingId : Nat}
    {s' : SystemState} {b : Booking}
    (h : checkOutOp s bookingId = Except.ok (s', b)) :
    ∃ b0, b = bookingPreSave b0 := by
  unfold checkOutOp at h
  simp only [] at h
  split at h
  · exact Except.noConfusion h
  · split at h
    · exact Except.noConfusion h
    · split at h
      · exact Except.noConfusion h
      · rename_i saved heq
        cases h
        exact ⟨_, save_ok_eq heq⟩

/-- C4: every operation that saves a Booking — creation, modification,
cancellation, check-in, check-out, payment application — leaves the saved
document with `payment.remainingAmount = max(0, pricing.totalAmount −
payment.paidAmount)` (the pre-save hook derivation, re-derived by the
reconciler on payment application). -/
theorem savedBooking_remaining_invariant :
    ∀ (s : SystemState) (op : Op) (b : Booking),
      opSavedBooking s op = some b →
      b.payment.remainingAmount =
        max 0 (b.pricing.totalAmount - b.payment.paidAmount) := by
  intro s op b h
  cases op with
  | create req newId todayStart =>
    simp only [opSavedBooking] at h
    split at h
    · rename_i s' b' heq
      obtain ⟨b0, hb0⟩ := createBooking_ok_shape heq
      have hb : b' = b := by simpa using h
      rw [← hb, hb0]
      exact preSave_remaining b0
    · exact absurd h (by simp)
  | update bookingId patch now =>
    simp only [opSavedBooking] at h
    split at h
    · rename_i s' b' heq
      obtain ⟨b0, hb0⟩ := updateBooking_ok_shape heq
      have hb : b' = b := by simpa using h
      rw [← hb, hb0]
      exact preSave_remaining b0
    · exact absurd h (by simp)
  | cancel bookingId now =>
    simp only [opSavedBooking] at h
    split at h
    · rename_i s' b' fee refund heq
      obtain ⟨b0, hb0⟩ := cancelBooking_ok_shape heq
      have hb : b' = b := by simpa using h
      rw [← hb, hb0]
      exact preSave_remaining b0
    · exact absurd h (by simp)
  | checkin bookingId now =>
    simp only [opSavedBooking] at h
    split at h
    · rename_i s' b' heq
      obtain ⟨b0, hb0⟩ := checkInOp_ok_shape heq
      have hb : b' = b := by simpa using h
      rw [← hb, hb0]
      exact preSave_remaining b0
    · exact absurd h (by simp)
  | checkout bookingId =>
    simp only [opSavedBooking] at h
    split at h
    · rename_i s' b' heq
      obtain ⟨b0, hb0⟩ := checkOutOp_ok_shape heq
      have hb : b' = b := by simpa using h
      rw [← hb, hb0]
      exact preSave_remaining b0
    · exact absurd h (by simp)
  | initiate bookingId newPaymentId ref =>
    exact absurd h (by simp [opSavedBooking])
  | gateway e =>
    obtain ⟨kind, ref⟩ := e
    cases kind with
    | succeeded =>
      simp only [opSavedBooking] at h
      unfold applySucceeded at h
      simp only [] at h
      cases hf : findPaymentByRef s.payments ref with
      | none => rw [hf] at h; exact absurd h (by simp)
      | some p =>
        rw [hf] at h
        simp only [] at h
        by_cases hs : p.status = PaymentStatus.succeeded
        · rw [if_pos hs] at h; exact absurd h (by simp)
        · rw [if_neg hs] at h
          cases hb2 : findBooking s p.booking with
          | none => rw [hb2] at h; exact absurd h (by simp)
          | some b0 =>
            rw [hb2] at h
            simp only [] at h
            have hb := Option.some.inj h
            rw [← hb]
    | failed => simp [opSavedBooking] at h
    | cancelled => simp [opSavedBooking] at h

theorem feePercentage_nonneg (h : ℚ) : 0 ≤ feePercentage h := by
  unfold feePercentage
  split_ifs <;> norm_num

theorem calculateCancellationFee_nonneg (b : Booking) (now : Ms)
    (ht : 0 ≤ b.pricing.totalAmount) : 0 ≤ b.calculateCancellationFee now := by
  unfold Booking.calculateCancellationFee
  have := feePercentage_nonneg (((b.checkInDate - now : Int) : ℚ) / (msPerHour : ℚ))
  positivity

/-- C7: for private and suite rooms the availability check succeeds iff no
booking of that room in status confirmed/checked_in overlaps the requested
half-open range, where ranges `[a,b)` and `[c,d)` conflict iff `a < d` and
`c < b`; consequently a booking whose check-out is on or before the
requested check-in never conflicts. -/
theorem checkAvailability_private_suite :
    ∀ (room : Room) (bookings : List Booking) (checkIn checkOut : Ms),
      room.type = RoomType.private' ∨ room.type = RoomType.suite →
      ((room.checkAvailability bookings checkIn checkOut none = true ↔
          ∀ b ∈ bookings,
            b.room = room.id →
            (b.status = BookingStatus.confirmed ∨ b.status = BookingStatus.checked_in) →
            ¬(b.checkInDate < checkOut ∧ checkIn < b.checkOutDate)) ∧
        ∀ b ∈ bookings, b.checkOutDate ≤ checkIn →
          overlapsRange b checkIn checkOut = false) := by
  intro room bookings checkIn checkOut htype
  constructor
  · unfold Room.checkAvailability
    have hns : ¬(room.type = RoomType.shared ∨ room.type = RoomType.dorm) := by
      rcases htype with h | h <;> simp [h]
    rw [if_neg hns]
    simp only [beq_iff_eq, List.length_eq_zero, conflictingBookingsFor,
      List.filter_eq_nil_iff, isConflictStatus, overlapsRange, Bool.and_eq_true,
      decide_eq_true_eq, Bool.or_eq_true, gt_iff_lt]
    constructor
    · intro hno b hb
      have := hno b hb
      tauto
    · intro hall b hb
      have := hall b hb
      tauto
  · intro b hb hco
    have hnot : ¬(checkIn < b.checkOutDate) := not_lt.mpr hco
    simp [overlapsRange, hnot]

/-- C8: every booking accepted by `createBooking` is priced with
`nights = ceil((checkOut − checkIn)/day) ≥ 1`,
`baseAmount = basePrice × nights × guestCount`, `taxes = 15% of base`,
`totalAmount = base + taxes`; contrapositively, a request whose dates give
`nights < 1` is never accepted (the save-time date validation rejects it). -/
theorem createBooking_pricing :
    ∀ (s : SystemState) (req : CreateRequest) (newId : Nat) (todayStart : Ms)
      (room : Room) (s' : SystemState) (b : Booking),
      findRoom s req.roomId = some room →
      createBooking s req newId todayStart = Except.ok (s', b) →
      1 ≤ ceilDivInt (req.checkOutDate - req.checkInDate) msPerDay ∧
      b.pricing.baseAmount =
        room.basePrice *
          ((ceilDivInt (req.checkOutDate - req.checkInDate) msPerDay : Int) : ℚ) *
          (req.guestCount : ℚ) ∧
      b.pricing.taxes = b.pricing.baseAmount * (15 / 100 : ℚ) ∧
      b.pricing.totalAmount = b.pricing.baseAmount + b.pricing.taxes := by
  intro s req newId todayStart room s' b hroom h
  unfold createBooking at h
  rw [hroom] at h
  simp only [] at h
  split at h
  · exact Except.noConfusion h
  · split at h
    · exact Except.noConfusion h
    · split at h
      · exact Except.noConfusion h
      · split at h
        · exact Except.noConfusion h
        · rename_i saved heq
          cases h
          have hdates := save_ok_dates heq
          have hpos : 0 < req.checkOutDate - req.checkInDate := by
            have h2 : req.checkInDate < req.checkOutDate := hdates
            linarith
          refine ⟨one_le_ceilDiv_of_pos hpos, ?_, ?_, ?_⟩ <;>
            rw [save_ok_eq heq] <;> rfl

/-- C9: a successful `cancelBooking` of a pending/confirmed booking sets
the status to cancelled and records `refundAmount = max(0, paidAmount −
cancellationFee)` with the fee from the cancellation policy, moving no
money (paid and total amounts unchanged); with zero payments the recorded
refund is 0 while the fee is still the policy value. -/
theorem cancelBooking_spec :
    ∀ (s : SystemState) (bookingId : Nat) (now : Ms) (b0 : Booking)
      (s' : SystemState) (b : Booking) (fee refund : Money),
      findBooking s bookingId = some b0 →
      cancelBooking s bookingId now = Except.ok (s', b, fee, refund) →
      (b0.status = BookingStatus.pending ∨ b0.status = BookingStatus.confirmed) ∧
      b.status = BookingStatus.cancelled ∧
      fee = b0.calculateCancellationFee now ∧
      refund = max 0 (b0.payment.paidAmount - fee) ∧
      b.cancellation = some { refundAmount := refund } ∧
      b.payment.paidAmount = b0.payment.paidAmount ∧
      b.pricing.totalAmount = b0.pricing.totalAmount ∧
      (b0.payment.paidAmount = 0 → 0 ≤ b0.pricing.totalAmount → refund = 0) := by
  intro s bookingId now b0 s' b fee refund hfind h
  unfold cancelBooking at h
  rw [hfind] at h
  simp only [] at h
  split at h
  · exact Except.noConfusion h
  · rename_i hguard
    split at h
    · exact Except.noConfusion h
    · rename_i saved heq
      cases h
      have hstat : b0.status = BookingStatus.pending ∨
          b0.status = BookingStatus.confirmed := by
        simp only [Bool.not_eq_true', decide_eq_false_iff_not, not_not] at hguard
        exact hguard
      refine ⟨hstat, ?_, rfl, rfl, ?_, ?_, ?_, ?_⟩
      · rw [save_ok_eq heq]; rfl
      · rw [save_ok_eq heq]; rfl
      · rw [save_ok_eq heq]; rfl
      · rw [save_ok_eq heq]; rfl
      · intro hp ht
        rw [hp]
        have hfee : 0 ≤ b0.calculateCancellationFee now :=
          calculateCancellationFee_nonneg b0 now ht
        rw [max_eq_left (by linarith)]

theorem occupiedBeds_eq_sum (l : List Booking) :
    occupiedBeds l = (l.map fun b => orOne b.guestCount).sum := by
  suffices hgen : ∀ n, l.foldl (fun total b => total + orOne b.guestCount) n =
      n + (l.map fun b => orOne b.guestCount).sum by
    simpa using hgen 0
  induction l with
  | nil => intro n; simp
  | cons a t ih =>
    intro n
    simp only [List.foldl_cons, List.map_cons, List.sum_cons, ih]
    omega

/-- C10: `updateOccupancy` sets `currentOccupancy` to the sum of
`guestCount` over the room's checked-in bookings, and sets the status to
`occupied` exactly when occupancy reaches capacity or the room is a
non-empty private/suite, and to `available` otherwise — any previous
status (maintenance, cleaning, out_of_order) is overwritten. -/
theorem updateOccupancy_spec :
    ∀ (room : Room) (bookings : List Booking),
      (∀ b ∈ bookings, 1 ≤ b.guestCount) →
      (room.updateOccupancy bookings).currentOccupancy =
        ((bookings.filter fun b =>
            b.room == room.id && b.status == BookingStatus.checked_in).map
          Booking.guestCount).sum ∧
      ((room.updateOccupancy bookings).status = RoomStatus.occupied ∨
        (room.updateOccupancy bookings).status = RoomStatus.available) ∧
      ((room.updateOccupancy bookings).status = RoomStatus.occupied ↔
        room.capacity ≤ (room.updateOccupancy bookings).currentOccupancy ∨
          (0 < (room.updateOccupancy bookings).currentOccupancy ∧
            (room.type = RoomType.private' ∨ room.type = RoomType.suite))) := by
  intro room bookings hg
  have hocc : (room.updateOccupancy bookings).currentOccupancy =
      ((bookings.filter fun b =>
          b.room == room.id && b.status == BookingStatus.checked_in).map
        Booking.guestCount).sum := by
    unfold Room.updateOccupancy
    simp only []
    rw [occupiedBeds_eq_sum]
    refine congrArg List.sum (List.map_congr_left ?_)
    intro b hb
    have hmem : b ∈ bookings := List.mem_of_mem_filter hb
    have h1 : 1 ≤ b.guestCount := hg b hmem
    unfold orOne
    rw [if_neg (by omega)]
  refine ⟨hocc, ?_, ?_⟩
  · unfold Room.updateOccupancy
    simp only []
    split_ifs <;> simp
  · unfold Room.updateOccupancy
    simp only []
    split_ifs with h1 h2
    · simp [h1]
    · simp [h2]
    · simp [h1, h2]

/-- Witness for C4 at a concrete input: the first creation of the C2
scenario saves a booking whose remaining amount is the derived value. -/
theorem savedBooking_remaining_invariant_witness :
    opSavedBooking c2State (Op.create ⟨1, day, 2 * day, 1⟩ 1 0) =
      some (c2B1 BookingStatus.pending payPending1) ∧
    (c2B1 BookingStatus.pending payPending1).payment.remainingAmount =
      max 0 ((c2B1 BookingStatus.pending payPending1).pricing.totalAmount -
        (c2B1 BookingStatus.pending payPending1).payment.paidAmount) := by
  have hyp : opSavedBooking c2State (Op.create ⟨1, day, 2 * day, 1⟩ 1 0) =
      some (c2B1 BookingStatus.pending payPending1) := by
    norm_num [opSavedBooking, createBooking, findRoom, Room.checkAvailability,
      conflictingBookingsFor, occupiedBeds, orOne, isConflictStatus, overlapsRange,
      Booking.save, bookingPreSave, validateBookingDates, ceilDivInt_day_one, msPerDay,
      day, c2State, c2Room, c2B1, payPending1, max_def]
  exact ⟨hyp, savedBooking_remaining_invariant c2State _ _ hyp⟩

/-- Witness for C7 at a concrete input: a private room with no bookings. -/
theorem checkAvailability_private_suite_witness :
    (c7Room.type = RoomType.private' ∨ c7Room.type = RoomType.suite) ∧
    ((c7Room.checkAvailability [] 0 day none = true ↔
        ∀ b ∈ ([] : List Booking),
          b.room = c7Room.id →
          (b.status = BookingStatus.confirmed ∨ b.status = BookingStatus.checked_in) →
          ¬(b.checkInDate < day ∧ 0 < b.checkOutDate)) ∧
      ∀ b ∈ ([] : List Booking), b.checkOutDate ≤ 0 →
        overlapsRange b 0 day = false) :=
  ⟨Or.inl rfl, checkAvailability_private_suite c7Room [] 0 day (Or.inl rfl)⟩

/-- Witness for C8 at a concrete input: the one-night one-guest creation of
the C2 scenario, priced 10 + 1.5 = 11.5. -/
theorem createBooking_pricing_witness :
    findRoom c2State c8Req.roomId = some c2Room ∧
    createBooking c2State c8Req 1 0 =
      Except.ok (c2S1, c2B1 BookingStatus.pending payPending1) ∧
    (1 ≤ ceilDivInt (c8Req.checkOutDate - c8Req.checkInDate) msPerDay ∧
      (c2B1 BookingStatus.pending payPending1).pricing.baseAmount =
        c2Room.basePrice *
          ((ceilDivInt (c8Req.checkOutDate - c8Req.checkInDate) msPerDay : Int) : ℚ) *
          (c8Req.guestCount : ℚ) ∧
      (c2B1 BookingStatus.pending payPending1).pricing.taxes =
        (c2B1 BookingStatus.pending payPending1).pricing.baseAmount * (15 / 100 : ℚ) ∧
      (c2B1 BookingStatus.pending payPending1).pricing.totalAmount =
        (c2B1 BookingStatus.pending payPending1).pricing.baseAmount +
          (c2B1 BookingStatus.pending payPending1).pricing.taxes) := by
  have hroom : findRoom c2State c8Req.roomId = some c2Room := rfl
  have hok : createBooking c2State c8Req 1 0 =
      Except.ok (c2S1, c2B1 BookingStatus.pending payPending1) := by
    norm_num [createBooking, findRoom, Room.checkAvailability, conflictingBookingsFor,
      occupiedBeds, orOne, isConflictStatus, overlapsRange, Booking.save, bookingPreSave,
      validateBookingDates, ceilDivInt_day_one, msPerDay, day, c2State, c2Room, c2S1, c2B1,
      payPending1, c8Req, max_def]
  exact ⟨hroom, hok, createBooking_pricing c2State c8Req 1 0 c2Room c2S1 _ hroom hok⟩

/-- Witness for C9 at a concrete input: cancelling a pending unpaid booking
72 hours before check-in charges the 25% tier and records a zero refund. -/
theorem cancelBooking_spec_witness :
    findBooking c9State 9 = some c9Booking ∧
    cancelBooking c9State 9 c9Now =
      Except.ok ({ c9State with bookings := [c9Saved] }, c9Saved, 115/2, 0) ∧
    ((c9Booking.status = BookingStatus.pending ∨
        c9Booking.status = BookingStatus.confirmed) ∧
      c9Saved.status = BookingStatus.cancelled ∧
      (115/2 : Money) = c9Booking.calculateCancellationFee c9Now ∧
      (0 : Money) = max 0 (c9Booking.payment.paidAmount - (115/2 : Money)) ∧
      c9Saved.cancellation = some { refundAmount := 0 } ∧
      c9Saved.payment.paidAmount = c9Booking.payment.paidAmount ∧
      c9Saved.pricing.totalAmount = c9Booking.pricing.totalAmount ∧
      (c9Booking.payment.paidAmount = 0 → 0 ≤ c9Booking.pricing.totalAmount →
        (0 : Money) = 0)) := by
  have hfind : findBooking c9State 9 = some c9Booking := rfl
  have hok : cancelBooking c9State 9 c9Now =
      Except.ok ({ c9State with bookings := [c9Saved] }, c9Saved, 115/2, 0) := by
    norm_num [cancelBooking, findBooking, Booking.save, bookingPreSave,
      validateBookingDates, Booking.calculateCancellationFee, feePercentage,
      replaceBooking, msPerHour, day, c9State, c9Booking, c9Saved, c9Now, max_def]
  exact ⟨hfind, hok, cancelBooking_spec c9State 9 c9Now c9Booking _ c9Saved (115/2) 0 hfind hok⟩

/-- Witness for C10 at a concrete input: recalculating an empty dorm that
was in maintenance resets it to available with zero occupancy. -/
theorem updateOccupancy_spec_witness :
    (∀ b ∈ ([] : List Booking), 1 ≤ b.guestCount) ∧
    ((c10Room.updateOccupancy []).currentOccupancy =
        ((([] : List Booking).filter fun b =>
            b.room == c10Room.id && b.status == BookingStatus.checked_in).map
          Booking.guestCount).sum ∧
      ((c10Room.updateOccupancy []).status = RoomStatus.occupied ∨
        (c10Room.updateOccupancy []).status = RoomStatus.available) ∧
      ((c10Room.updateOccupancy []).status = RoomStatus.occupied ↔
        c10Room.capacity ≤ (c10Room.updateOccupancy []).currentOccupancy ∨
          (0 < (c10Room.updateOccupancy []).currentOccupancy ∧
            (c10Room.type = RoomType.private' ∨ c10Room.type = RoomType.suite)))) :=
  ⟨by simp, updateOccupancy_spec c10Room [] (by simp)⟩

end PVT
